import Mathlib

/-!
Verification of the reactive update logic of the SpaceX launch-records
dashboard (`gf-ibm-ds-dash.py`).

The dataset is a list of launch records (one per CSV row).  The two Dash
callbacks, `get_pie_chart` and `get_scatter_chart`, are embedded as pure
functions from the dataset and the callback inputs to a chart-figure
description.  Pandas/plotly operations are translated as follows:

* a dataframe is a `List LaunchRecord`; a column is the list of its values;
* boolean-mask selection `df[mask]` is `List.filter` (pandas returns a copy);
* `Series.value_counts()` lists each distinct present value with its count,
  sorted by descending count (a stable sort, ties keep first-appearance
  order);
* `Series.unique()` lists distinct values in first-appearance order;
* `Series.map {0: 'Failure', 1: 'Success'}` maps unmapped values to NaN,
  rendered here as the string "NaN";
* `px.pie(df, values=v, names=n)` aggregates: one slice per distinct name,
  the slice value being the sum of `v` over the rows carrying that name;
* `px.colors.qualitative.Plotly` is the fixed 10-colour palette; Python list
  indexing past its end raises, rendered here by `List.get?` returning
  `none`;
* `entered_payload[0]` / `entered_payload[-1]` on an empty list raise
  `IndexError`, so `get_scatter_chart` returns an `Option`, `none` exactly
  when the payload-range list is empty.
-/

/-- One row of `spacex_launch_dash.csv`: the four columns the dashboard
uses ('Launch Site', 'Payload Mass (kg)', 'class', 'Booster Version
Category').  `class` is a reserved word in Lean, so the outcome-class
column is called `cls`; it is kept numeric (`Nat`) as in the CSV, since
the code sums it (`values='class'`). -/
structure LaunchRecord where
  site : String
  payload : ℚ
  cls : Nat
  booster : String
deriving DecidableEq

/-- `px.colors.qualitative.Plotly`: the fixed default qualitative palette. -/
def plotlyQualitative : List String :=
  ["#636EFA", "#EF553B", "#00CC96", "#AB63FA", "#FFA15A",
   "#19D3F3", "#FF6692", "#B6E880", "#FF97FF", "#FECB52"]

/-- Distinct values of a list in first-appearance order: the embedding of
`pandas.Series.unique()`. -/
def uniqueList {α : Type} [DecidableEq α] : List α → List α
  | [] => []
  | x :: xs => x :: (uniqueList xs).filter (fun y => y != x)

/-- Stable insertion of a `(value, count)` pair into a list sorted by
descending count: the pair goes after every earlier pair of count ≥ its
own, as a stable sort would place it. -/
def insertByCountDesc (p : Nat × Nat) : List (Nat × Nat) → List (Nat × Nat)
  | [] => [p]
  | q :: qs => if q.2 < p.2 then p :: q :: qs else q :: insertByCountDesc p qs

/-- Stable sort by descending count. -/
def sortByCountDesc : List (Nat × Nat) → List (Nat × Nat)
  | [] => []
  | p :: ps => insertByCountDesc p (sortByCountDesc ps)

/-- `pandas.Series.value_counts()` on a column of `Nat`: each distinct
present value with its count, sorted by descending count. -/
def value_counts (l : List Nat) : List (Nat × Nat) :=
  sortByCountDesc ((uniqueList l).map (fun v => (v, l.count v)))

/-- `Series.map({0: 'Failure', 1: 'Success'})` applied to one class value;
pandas sends unmapped values to NaN, rendered "NaN". -/
def classLabel (v : Nat) : String :=
  if v = 0 then "Failure" else if v = 1 then "Success" else "NaN"

/-- The figure returned by `get_pie_chart`: what `px.pie` receives —
the slice list (name, value), the explicit discrete colour map
(`color_discrete_map`, empty when the call passes none), the explicit
`category_orders` for the name column (empty when the call passes none),
and the title. -/
structure PieFig where
  slices : List (String × Nat)
  colorMap : List (String × Option String)
  categoryOrder : List String
  title : String
deriving DecidableEq

/-- The figure returned by `get_scatter_chart`: the filtered records (one
scatter point per record: x = payload, y = cls, size = payload, colour
keyed by booster), the booster colour map, the title, and the y-axis tick
text installed by `update_yaxes`. -/
structure ScatterFig where
  points : List LaunchRecord
  colorMap : List (String × Option String)
  title : String
  ytickText : List String
deriving DecidableEq

/-- `spacex_df['Payload Mass (kg)'].min()`; pandas yields NaN on an empty
column, so the `0` default of the empty case is never meaningful and every
use below assumes a nonempty dataset. -/
def column_min : List ℚ → ℚ
  | [] => 0
  | x :: xs => xs.foldl min x

/-- `spacex_df['Payload Mass (kg)'].max()` (same empty-column caveat). -/
def column_max : List ℚ → ℚ
  | [] => 0
  | x :: xs => xs.foldl max x

def min_payload (df : List LaunchRecord) : ℚ := column_min (df.map (·.payload))

def max_payload (df : List LaunchRecord) : ℚ := column_max (df.map (·.payload))

/-- The `get_pie_chart` callback (TASK 2).  `entered_site == 'ALL'` returns
`px.pie(spacex_df, values='class', names='Launch Site', ...)` — one slice
per launch site whose value is the sum of `class` over that site's rows —
with no explicit colour map or category order.  Otherwise the rows of the
selected site are taken, their `class` column is `value_counts`-ed, the
binary classes are relabelled Failure/Success, and the pie gets the fixed
colour map {Failure ↦ Plotly[1], Success ↦ Plotly[0]} and the fixed
category order [Success, Failure]. -/
def get_pie_chart (df : List LaunchRecord) (entered_site : String) : PieFig :=
  if entered_site == "ALL" then
    { slices := (uniqueList (df.map (·.site))).map
        (fun s => (s, ((df.filter (fun r => r.site == s)).map (·.cls)).sum)),
      colorMap := [],
      categoryOrder := [],
      title := "Total Success Launches By Site" }
  else
    let color_map : List (String × Option String) :=
      [("Failure", plotlyQualitative.get? 1), ("Success", plotlyQualitative.get? 0)]
    let category_orders : List String := ["Success", "Failure"]
    let filtered := (df.filter (fun r => r.site == entered_site)).map (·.cls)
    { slices := (value_counts filtered).map (fun p => (classLabel p.1, p.2)),
      colorMap := color_map,
      categoryOrder := category_orders,
      title := "Total Success Launches for Site " ++ entered_site }

/-- The `get_scatter_chart` callback (TASK 4).  The payload bounds come
from `entered_payload[0]` and `entered_payload[-1]` (an `IndexError`,
hence `none`, on an empty list); rows are filtered to the inclusive
payload range, then to the selected site unless it is "ALL"; the booster
colour map is built from the distinct boosters of the FULL dataset in
first-appearance order, indexed into the Plotly palette. -/
def get_scatter_chart (df : List LaunchRecord) (entered_site : String)
    (entered_payload : List ℚ) : Option ScatterFig :=
  match entered_payload.head?, entered_payload.getLast? with
  | some entered_payload_min, some entered_payload_max =>
    let byPayload := df.filter
      (fun r => decide (entered_payload_min ≤ r.payload) &&
                decide (r.payload ≤ entered_payload_max))
    let filtered := if entered_site == "ALL" then byPayload
                    else byPayload.filter (fun r => r.site == entered_site)
    let boosters := uniqueList (df.map (·.booster))
    let color_map := boosters.enum.map (fun p => (p.2, plotlyQualitative.get? p.1))
    let title_suffix := if entered_site == "ALL" then "all Sites"
                        else "site " ++ entered_site
    some { points := filtered,
           colorMap := color_map,
           title := "Correlation between Payload and Success for " ++ title_suffix,
           ytickText := ["Failure", "Success"] }
  | _, _ => none

/-- The module-level mutable environment the callbacks could in principle
touch: the loaded dataframe and the summaries derived from it at startup
(lines 10-14 of the source). -/
structure AppState where
  spacex_df : List LaunchRecord
  max_payload : ℚ
  min_payload : ℚ
  launch_sites : List String
deriving DecidableEq

/-- `get_pie_chart` with the module environment threaded explicitly.  Every
pandas operation in the body returns a fresh object (boolean-mask selection
copies, `value_counts`/`reset_index` build new frames, and the local
`filtered_df['class'] = ...` assignment mutates only that local copy), so
the environment after the call is the environment before it. -/
def get_pie_chart_st (st : AppState) (entered_site : String) : PieFig × AppState :=
  (get_pie_chart st.spacex_df entered_site, st)

/-- `get_scatter_chart` with the module environment threaded explicitly
(same copy semantics: the callback only reads `spacex_df`). -/
def get_scatter_chart_st (st : AppState) (entered_site : String)
    (entered_payload : List ℚ) : Option ScatterFig × AppState :=
  (get_scatter_chart st.spacex_df entered_site entered_payload, st)

/-- The points of an optional scatter figure (empty when the call raised). -/
def scatterPoints (o : Option ScatterFig) : List LaunchRecord :=
  match o with
  | none => []
  | some f => f.points

/-- The colour map of an optional scatter figure. -/
def scatterColorMap (o : Option ScatterFig) : List (String × Option String) :=
  match o with
  | none => []
  | some f => f.colorMap

/-- Colour looked up for one category in a discrete colour map. -/
def colorLookup (m : List (String × Option String)) (b : String) :
    Option (Option String) :=
  (m.find? (fun p => p.1 == b)).map (·.2)

/-- Value of the named slice of a pie figure, when such a slice exists. -/
def sliceValue (fig : PieFig) (name : String) : Option Nat :=
  (fig.slices.find? (fun p => p.1 == name)).map (·.2)

/-- All class values of the dataset are binary (0 = failure, 1 = success):
the data-model invariant of the CSV's `class` column. -/
def BinaryClasses (df : List LaunchRecord) : Prop :=
  ∀ r ∈ df, r.cls = 0 ∨ r.cls = 1

instance (df : List LaunchRecord) : Decidable (BinaryClasses df) := by
  unfold BinaryClasses; infer_instance

/-- A small concrete dataset used by the witnesses and counterexamples:
two sites, two boosters, binary classes. -/
def testDf : List LaunchRecord :=
  [⟨"A", 100, 1, "v1.0"⟩,
   ⟨"A", 6000, 0, "FT"⟩,
   ⟨"A", 3000, 1, "v1.0"⟩,
   ⟨"B", 2500, 0, "FT"⟩,
   ⟨"B", 4000, 0, "FT"⟩]

/-! ### List lemmas -/

theorem mem_uniqueList {α : Type} [DecidableEq α] (a : α) (l : List α) :
    a ∈ uniqueList l ↔ a ∈ l := by
  induction l with
  | nil => simp [uniqueList]
  | cons x xs ih =>
    simp only [uniqueList, List.mem_cons, List.mem_filter, bne_iff_ne, ih]
    by_cases h : a = x <;> simp [h]

theorem nodup_uniqueList {α : Type} [DecidableEq α] (l : List α) :
    (uniqueList l).Nodup := by
  induction l with
  | nil => simp [uniqueList]
  | cons x xs ih =>
    refine List.nodup_cons.mpr ⟨fun hmem => ?_, ih.filter _⟩
    exact absurd (List.mem_filter.mp hmem).2 (by simp)

theorem sum_map_filter_split {α : Type} (p : α → Bool) (f : α → Nat) (l : List α) :
    ((l.filter p).map f).sum + ((l.filter (fun a => !(p a))).map f).sum
      = (l.map f).sum := by
  induction l with
  | nil => simp
  | cons a t ih =>
    by_cases h : p a <;>
      simp only [List.filter_cons, h, Bool.not_true, Bool.not_false, if_pos, if_neg,
        Bool.false_eq_true, not_false_eq_true, List.map_cons, List.sum_cons,
        ite_true, ite_false] <;> omega

theorem sum_fibers {α κ : Type} [DecidableEq κ] (k : α → κ) (f : α → Nat) :
    ∀ (keys : List κ) (l : List α), keys.Nodup → (∀ a ∈ l, k a ∈ keys) →
    (keys.map (fun s => ((l.filter (fun a => k a == s)).map f).sum)).sum
      = (l.map f).sum := by
  intro keys
  induction keys with
  | nil =>
    intro l _ hcov
    cases l with
    | nil => simp
    | cons a t => exact absurd (hcov a (List.mem_cons_self a t)) (by simp)
  | cons s rest ih =>
    intro l hnd hcov
    simp only [List.map_cons, List.sum_cons]
    have hrest : (rest.map (fun s2 => ((l.filter (fun a => k a == s2)).map f).sum)).sum
        = (rest.map (fun s2 =>
            (((l.filter (fun a => !(k a == s))).filter (fun a => k a == s2)).map f).sum)).sum := by
      refine congrArg List.sum (List.map_congr_left fun s2 hs2 => ?_)
      rw [List.filter_filter]
      refine congrArg (fun l2 => (List.map f l2).sum) (List.filter_congr fun a _ => ?_)
      by_cases h2 : k a = s2
      · have hne : s2 ≠ s := fun h => (List.nodup_cons.mp hnd).1 (h ▸ hs2)
        simp [h2, hne]
      · simp [h2]
    rw [hrest, ih (l.filter (fun a => !(k a == s))) (List.nodup_cons.mp hnd).2
      (fun a ha => ?_), sum_map_filter_split (fun a => k a == s) f l]
    rcases List.mem_filter.mp ha with ⟨hal, hne⟩
    rcases List.mem_cons.mp (hcov a hal) with h | h
    · simp [h] at hne
    · exact h

theorem sum_binary_eq_countP {α : Type} (f : α → Nat) (l : List α)
    (h : ∀ a ∈ l, f a = 0 ∨ f a = 1) :
    (l.map f).sum = l.countP (fun a => f a == 1) := by
  induction l with
  | nil => simp
  | cons a t ih =>
    have iht := ih (fun b hb => h b (List.mem_cons_of_mem a hb))
    rw [List.map_cons, List.sum_cons, List.countP_cons]
    rcases h a (List.mem_cons_self a t) with h0 | h0 <;> simp [h0, iht] <;> omega

theorem insertByCountDesc_perm (p : Nat × Nat) (l : List (Nat × Nat)) :
    (insertByCountDesc p l).Perm (p :: l) := by
  induction l with
  | nil => simp [insertByCountDesc]
  | cons q qs ih =>
    rw [insertByCountDesc]
    by_cases h : q.2 < p.2
    · simp [h]
    · simpa [h] using (ih.cons q).trans (List.Perm.swap p q qs)

theorem sortByCountDesc_perm (l : List (Nat × Nat)) :
    (sortByCountDesc l).Perm l := by
  induction l with
  | nil => simp [sortByCountDesc]
  | cons p ps ih =>
    exact (insertByCountDesc_perm p (sortByCountDesc ps)).trans (ih.cons p)

theorem foldl_min_le : ∀ (xs : List ℚ) (x y : ℚ), y ∈ x :: xs → xs.foldl min x ≤ y := by
  intro xs
  induction xs with
  | nil =>
    intro x y hy
    rw [List.mem_singleton] at hy
    subst hy; simp
  | cons a t ih =>
    intro x y hy
    rw [List.foldl_cons]
    rcases List.mem_cons.mp hy with rfl | hy2
    · exact (ih (min y a) (min y a) (List.mem_cons_self _ _)).trans (min_le_left y a)
    rcases List.mem_cons.mp hy2 with rfl | hy3
    · exact (ih (min x y) (min x y) (List.mem_cons_self _ _)).trans (min_le_right x y)
    · exact ih (min x a) y (List.mem_cons_of_mem _ hy3)

theorem le_foldl_max : ∀ (xs : List ℚ) (x y : ℚ), y ∈ x :: xs → y ≤ xs.foldl max x := by
  intro xs
  induction xs with
  | nil =>
    intro x y hy
    rw [List.mem_singleton] at hy
    subst hy; simp
  | cons a t ih =>
    intro x y hy
    rw [List.foldl_cons]
    rcases List.mem_cons.mp hy with rfl | hy2
    · exact (le_max_left y a).trans (ih (max y a) (max y a) (List.mem_cons_self _ _))
    rcases List.mem_cons.mp hy2 with rfl | hy3
    · exact (le_max_right x y).trans (ih (max x y) (max x y) (List.mem_cons_self _ _))
    · exact ih (max x a) y (List.mem_cons_of_mem _ hy3)

theorem find?_map_enumFrom {α : Type} [DecidableEq α] (g : Nat → Option String) :
    ∀ (u : List α) (n : Nat) (b : α), b ∈ u →
    ((List.enumFrom n u).map (fun p => (p.2, g p.1))).find? (fun q => q.1 == b)
      = some (b, g (n + u.indexOf b)) := by
  intro u
  induction u with
  | nil => intro n b hb; exact absurd hb (List.not_mem_nil b)
  | cons x xs ih =>
    intro n b hb
    by_cases hxb : x = b
    · subst hxb
      rw [List.enumFrom, List.map_cons,
        List.find?_cons_of_pos _ (by simp), List.indexOf_cons_self]
      simp
    · rcases List.mem_cons.mp hb with rfl | hbxs
      · exact absurd rfl hxb
      rw [List.enumFrom, List.map_cons, List.find?_cons_of_neg _ (by simp [hxb]),
        ih (n + 1) b hbxs, List.indexOf_cons_ne _ hxb]
      exact congrArg (fun m => some (b, g m)) (by omega)

/-! ### Helper lemmas about the embedded callbacks -/

theorem binary_nodup_length_le_two (l : List Nat) (hnd : l.Nodup)
    (h01 : ∀ v ∈ l, v = 0 ∨ v = 1) : l.length ≤ 2 := by
  have hsub : l.toFinset ⊆ ({0, 1} : Finset Nat) := by
    intro v hv
    rcases h01 v (List.mem_toFinset.mp hv) with rfl | rfl <;> simp
  have hcard := Finset.card_le_card hsub
  rw [List.toFinset_card_of_nodup hnd] at hcard
  simpa using hcard

/-- Class values appearing in the site-restricted class column are binary
whenever the dataset's are. -/
theorem binary_site_column (df : List LaunchRecord) (s : String)
    (hb : BinaryClasses df) :
    ∀ v ∈ (df.filter (fun r => r.site == s)).map (·.cls), v = 0 ∨ v = 1 := by
  intro v hv
  rcases List.mem_map.mp hv with ⟨r, hr, rfl⟩
  exact hb r (List.mem_filter.mp hr).1

theorem count_one_site_column (df : List LaunchRecord) (s : String) :
    ((df.filter (fun r => r.site == s)).map (·.cls)).count 1
      = df.countP (fun r => r.site == s && r.cls == 1) := by
  rw [List.count_eq_countP, List.countP_map, List.countP_filter]
  exact List.countP_congr (fun r _ => by simp [Bool.and_comm])

/-- For a nonempty payload-range list the scatter callback evaluates its
body on the list's head and last element. -/
theorem get_scatter_chart_cons (df : List LaunchRecord) (s : String)
    (a : ℚ) (t : List ℚ) :
    get_scatter_chart df s (a :: t) =
      some { points :=
               (if s == "ALL" then
                 df.filter (fun r => decide (a ≤ r.payload) &&
                   decide (r.payload ≤ (a :: t).getLast (List.cons_ne_nil a t)))
               else
                 (df.filter (fun r => decide (a ≤ r.payload) &&
                   decide (r.payload ≤ (a :: t).getLast (List.cons_ne_nil a t)))).filter
                     (fun r => r.site == s)),
             colorMap := (List.enumFrom 0 (uniqueList (df.map (·.booster)))).map
                           (fun p => (p.2, plotlyQualitative.get? p.1)),
             title := "Correlation between Payload and Success for "
                        ++ (if s == "ALL" then "all Sites" else "site " ++ s),
             ytickText := ["Failure", "Success"] } := by
  simp only [get_scatter_chart, List.head?_cons,
    List.getLast?_eq_getLast (a :: t) (List.cons_ne_nil a t), List.enum_eq_enumFrom]

/-- The scatter callback inspects only the head and the last element of
the payload-range list. -/
theorem get_scatter_chart_head_last (df : List LaunchRecord) (s : String)
    (r1 r2 : List ℚ) (hh : r1.head? = r2.head?) (hl : r1.getLast? = r2.getLast?) :
    get_scatter_chart df s r1 = get_scatter_chart df s r2 := by
  rw [get_scatter_chart, hh, hl, get_scatter_chart]

/-- The points of the scatter figure for the two-element range `[lo, hi]`:
the records passing the inclusive payload-range test and, unless "ALL" is
selected, the site test. -/
theorem scatterPoints_pair (df : List LaunchRecord) (s : String) (lo hi : ℚ) :
    scatterPoints (get_scatter_chart df s [lo, hi])
      = df.filter (fun r => decide (lo ≤ r.payload) && decide (r.payload ≤ hi)
          && (s == "ALL" || r.site == s)) := by
  rw [get_scatter_chart_cons]
  by_cases hall : s == "ALL"
  · rw [if_pos hall]
    unfold scatterPoints
    exact List.filter_congr (fun r _ => by simp [hall])
  · rw [if_neg hall]
    unfold scatterPoints
    rw [List.filter_filter]
    refine List.filter_congr (fun r _ => ?_)
    simp only [Bool.eq_false_iff] at *
    simp [hall, Bool.and_comm, List.getLast]

theorem min_payload_le (df : List LaunchRecord) (r : LaunchRecord) (hr : r ∈ df) :
    min_payload df ≤ r.payload := by
  cases df with
  | nil => exact absurd hr (List.not_mem_nil r)
  | cons a t =>
    have hmem : r.payload ∈ a.payload :: t.map (·.payload) := by
      rcases List.mem_cons.mp hr with rfl | hrt
      · exact List.mem_cons_self _ _
      · exact List.mem_cons_of_mem _ (List.mem_map_of_mem _ hrt)
    simpa [min_payload, column_min] using foldl_min_le (t.map (·.payload)) a.payload r.payload hmem

theorem le_max_payload (df : List LaunchRecord) (r : LaunchRecord) (hr : r ∈ df) :
    r.payload ≤ max_payload df := by
  cases df with
  | nil => exact absurd hr (List.not_mem_nil r)
  | cons a t =>
    have hmem : r.payload ∈ a.payload :: t.map (·.payload) := by
      rcases List.mem_cons.mp hr with rfl | hrt
      · exact List.mem_cons_self _ _
      · exact List.mem_cons_of_mem _ (List.mem_map_of_mem _ hrt)
    simpa [max_payload, column_max] using le_foldl_max (t.map (·.payload)) a.payload r.payload hmem

/-! ### The claims -/

/-- C3: for every site and every payload range `[low, high]`, the
scatter-chart updater returns exactly the records with
`low ≤ payloadMass ≤ high` (inclusive at both ends), further restricted to
`site == selectedSite` when the site is not "ALL", and returns no points
when no record satisfies the range. -/
theorem scatter_range_filter (df : List LaunchRecord) (s : String) (lo hi : ℚ) :
    scatterPoints (get_scatter_chart df s [lo, hi])
      = df.filter (fun r => decide (lo ≤ r.payload) && decide (r.payload ≤ hi)
          && (s == "ALL" || r.site == s)) ∧
    ((∀ r ∈ df, ¬(lo ≤ r.payload ∧ r.payload ≤ hi)) →
      scatterPoints (get_scatter_chart df s [lo, hi]) = []) := by
  refine ⟨scatterPoints_pair df s lo hi, fun h => ?_⟩
  rw [scatterPoints_pair df s lo hi]
  refine List.filter_eq_nil_iff.mpr (fun r hr => ?_)
  have hrange := h r hr
  simp only [Bool.and_eq_true, decide_eq_true_eq]
  rintro ⟨⟨h1, h2⟩, -⟩
  exact hrange ⟨h1, h2⟩

/-- Witness for C3 at a concrete input: no record of site "B" has payload
in [9000, 9999], and the returned point set is empty. -/
theorem scatter_range_filter_w :
    scatterPoints (get_scatter_chart testDf "B" [9000, 9999]) = [] :=
  (scatter_range_filter testDf "B" 9000 9999).2 (by decide)

/-- C6: at the dataset-derived default range
`[minPayload, maxPayload]`, the payload filter keeps every record, so the
scatter-chart updater returns every record of the selected site (the whole
dataset for "ALL"). -/
theorem scatter_default_range_identity (df : List LaunchRecord) (s : String) :
    scatterPoints (get_scatter_chart df s [min_payload df, max_payload df])
      = if s == "ALL" then df else df.filter (fun r => r.site == s) := by
  rw [scatterPoints_pair]
  by_cases hall : s == "ALL"
  · rw [if_pos hall]
    refine List.filter_eq_self.mpr (fun r hr => ?_)
    simp [hall, min_payload_le df r hr, le_max_payload df r hr]
  · rw [if_neg hall]
    refine List.filter_congr (fun r hr => ?_)
    simp [hall, min_payload_le df r hr, le_max_payload df r hr]

/-- C9: neither updater mutates the module environment: after either call
the dataset and every derived summary are exactly as before; the callbacks
only build new filtered copies. -/
theorem updaters_preserve_state (st : AppState) (s : String) (r : List ℚ) :
    (get_pie_chart_st st s).2 = st ∧ (get_scatter_chart_st st s r).2 = st :=
  ⟨rfl, rfl⟩

/-- C10: the scatter-chart updater accepts any payload-range list with at
least one element, taking the lower bound from the first element and the
upper bound from the last: for `[x]` it keeps exactly the records with
payload `x`, its output depends only on the first and last elements (it
never inspects the ones between), and it returns a figure for every
nonempty list. -/
theorem scatter_payload_list_protocol (df : List LaunchRecord) (s : String)
    (x : ℚ) (r1 r2 : List ℚ) :
    scatterPoints (get_scatter_chart df s [x])
      = df.filter (fun r => r.payload == x && (s == "ALL" || r.site == s)) ∧
    (r1.head? = r2.head? → r1.getLast? = r2.getLast? →
      get_scatter_chart df s r1 = get_scatter_chart df s r2) ∧
    (r1 ≠ [] → (get_scatter_chart df s r1).isSome = true) := by
  refine ⟨?_, get_scatter_chart_head_last df s r1 r2, fun h1 => ?_⟩
  · have hx : get_scatter_chart df s [x] = get_scatter_chart df s [x, x] :=
      get_scatter_chart_head_last df s [x] [x, x] rfl (by simp)
    rw [hx, scatterPoints_pair]
    refine List.filter_congr (fun r _ => ?_)
    have hiff : (decide (x ≤ r.payload) && decide (r.payload ≤ x)) = (r.payload == x) := by
      by_cases hpx : r.payload = x
      · simp [hpx]
      · have hb : (r.payload == x) = false := by simp [hpx]
        rw [hb]
        by_cases hle : x ≤ r.payload
        · have hnle : ¬(r.payload ≤ x) := fun h2 => hpx (le_antisymm h2 hle)
          simp [hle, hnle]
        · simp [hle]
    rw [hiff]
  · obtain ⟨a, t, rfl⟩ : ∃ a t, r1 = a :: t := by
      cases r1 with
      | nil => exact absurd rfl h1
      | cons a t => exact ⟨a, t, rfl⟩
    rw [get_scatter_chart_cons]
    rfl

/-- Witness for C10: the middle element of the payload-range list is
ignored (99 vs 2000), and the single-element range `[2500]` keeps exactly
the one record with payload 2500. -/
theorem scatter_payload_list_protocol_w :
    get_scatter_chart testDf "A" [1000, 2000, 6000]
      = get_scatter_chart testDf "A" [1000, 99, 6000] ∧
    scatterPoints (get_scatter_chart testDf "B" [2500]) = [⟨"B", 2500, 0, "FT"⟩] := by
  refine ⟨(scatter_payload_list_protocol testDf "A" 0
    [1000, 2000, 6000] [1000, 99, 6000]).2.1 rfl rfl, ?_⟩
  rw [(scatter_payload_list_protocol testDf "B" 2500 [] []).1]
  decide

/-- C8 counterexample: called directly with the malformed range
`[5000, 1000]` (low > high), the scatter-chart updater does not fail with
any error: it returns an ordinary figure whose point list is empty.  (The
source defines no `InvalidRangeError` and performs no range check.) -/
theorem scatter_inverted_range_no_error :
    get_scatter_chart testDf "ALL" [5000, 1000]
      = some { points := [],
               colorMap := [("v1.0", some "#636EFA"), ("FT", some "#EF553B")],
               title := "Correlation between Payload and Success for all Sites",
               ytickText := ["Failure", "Success"] } := by decide

/-- C8 amended: for every payload range `[low, high]` with `low > high`
the scatter-chart updater does not raise; it returns a figure with an
empty point list (the inclusive range filter matches nothing). -/
theorem scatter_inverted_range_empty (df : List LaunchRecord) (s : String)
    (lo hi : ℚ) (h : hi < lo) :
    scatterPoints (get_scatter_chart df s [lo, hi]) = [] ∧
    (get_scatter_chart df s [lo, hi]).isSome = true := by
  refine ⟨?_, by rw [get_scatter_chart_cons]; rfl⟩
  rw [scatterPoints_pair]
  refine List.filter_eq_nil_iff.mpr (fun r hr => ?_)
  simp only [Bool.and_eq_true, decide_eq_true_eq]
  rintro ⟨⟨h1, h2⟩, -⟩
  exact absurd (h1.trans h2) (not_le.mpr h)

/-- Witness for C8's amended claim at the concrete inverted range
`[5000, 100]` for site "B". -/
theorem scatter_inverted_range_empty_w :
    scatterPoints (get_scatter_chart testDf "B" [5000, 100]) = [] ∧
    (get_scatter_chart testDf "B" [5000, 100]).isSome = true :=
  scatter_inverted_range_empty testDf "B" 5000 100 (by norm_num)

/-- C4: the booster colour map of the scatter figure is the same for every
site selection and every payload range, and the colour of a booster `b` is
the palette entry at `b`'s first-appearance index in the FULL unfiltered
dataset — never influenced by the current filter. -/
theorem scatter_color_stable (df : List LaunchRecord) (s1 s2 : String)
    (r1 r2 : List ℚ) (h1 : r1 ≠ []) (h2 : r2 ≠ []) :
    scatterColorMap (get_scatter_chart df s1 r1)
      = scatterColorMap (get_scatter_chart df s2 r2) ∧
    ∀ b ∈ df.map (·.booster),
      colorLookup (scatterColorMap (get_scatter_chart df s1 r1)) b
        = some (plotlyQualitative.get?
            ((uniqueList (df.map (·.booster))).indexOf b)) := by
  have key : ∀ (s : String) (r : List ℚ), r ≠ [] →
      scatterColorMap (get_scatter_chart df s r)
        = (List.enumFrom 0 (uniqueList (df.map (·.booster)))).map
            (fun p => (p.2, plotlyQualitative.get? p.1)) := by
    intro s r hr
    obtain ⟨a, t, rfl⟩ : ∃ a t, r = a :: t := by
      cases r with
      | nil => exact absurd rfl hr
      | cons a t => exact ⟨a, t, rfl⟩
    rw [get_scatter_chart_cons]
    rfl
  refine ⟨by rw [key s1 r1 h1, key s2 r2 h2], fun b hb => ?_⟩
  rw [key s1 r1 h1]
  unfold colorLookup
  rw [find?_map_enumFrom (fun i => plotlyQualitative.get? i)
    (uniqueList (df.map (·.booster))) 0 b ((mem_uniqueList b _).mpr hb)]
  simp

/-- Witness for C4: the colour map is unchanged between the "ALL" view at
one range and the site-"A" view at another, and booster "FT" (second
distinct booster of the dataset) is coloured by palette entry 1. -/
theorem scatter_color_stable_w :
    scatterColorMap (get_scatter_chart testDf "ALL" [0, 6000])
      = scatterColorMap (get_scatter_chart testDf "A" [0, 3000]) ∧
    colorLookup (scatterColorMap (get_scatter_chart testDf "ALL" [0, 6000])) "FT"
      = some (some "#EF553B") := by
  have h := scatter_color_stable testDf "ALL" "A" [0, 6000] [0, 3000]
    (by decide) (by decide)
  refine ⟨h.1, ?_⟩
  rw [h.2 "FT" (by decide)]
  decide

/-- C1: for input "ALL" the pie-chart updater produces one slice per
launch site, each slice's value is the number of that site's records with
outcome class 1 (given the binary-class data invariant), and the slice
values sum to the dataset's total success count. -/
theorem pie_all_success_by_site (df : List LaunchRecord) (hb : BinaryClasses df) :
    (get_pie_chart df "ALL").slices.map Prod.fst = uniqueList (df.map (·.site)) ∧
    (∀ p ∈ (get_pie_chart df "ALL").slices,
      p.2 = df.countP (fun r => r.site == p.1 && r.cls == 1)) ∧
    ((get_pie_chart df "ALL").slices.map Prod.snd).sum
      = df.countP (fun r => r.cls == 1) := by
  have hslices : (get_pie_chart df "ALL").slices
      = (uniqueList (df.map (·.site))).map
          (fun s => (s, ((df.filter (fun r => r.site == s)).map (·.cls)).sum)) := by
    simp only [get_pie_chart, beq_self_eq_true, if_true]
  refine ⟨?_, ?_, ?_⟩
  · rw [hslices, List.map_map]
    have hcomp : (Prod.fst ∘ (fun s =>
        (s, ((df.filter (fun r => r.site == s)).map (·.cls)).sum))) = id := rfl
    rw [hcomp, List.map_id]
  · rw [hslices]
    intro p hp
    rcases List.mem_map.mp hp with ⟨s, _, rfl⟩
    show ((df.filter (fun r => r.site == s)).map (·.cls)).sum
      = df.countP (fun r => r.site == s && r.cls == 1)
    rw [sum_binary_eq_countP (·.cls) _ (fun r hr => hb r (List.mem_filter.mp hr).1),
      List.countP_filter]
    exact List.countP_congr (fun r _ => by simp [Bool.and_comm])
  · rw [hslices, List.map_map]
    refine Eq.trans ?_ (sum_binary_eq_countP (fun r : LaunchRecord => r.cls) df hb)
    exact sum_fibers (fun r : LaunchRecord => r.site) (fun r : LaunchRecord => r.cls)
      (uniqueList (df.map (·.site))) df (nodup_uniqueList _)
      (fun r hr => (mem_uniqueList _ _).mpr (List.mem_map_of_mem _ hr))

/-- Witness for C1 on the concrete dataset: the "ALL" slice values sum to
the total success count, which is 2. -/
theorem pie_all_success_by_site_w :
    ((get_pie_chart testDf "ALL").slices.map Prod.snd).sum
      = testDf.countP (fun r => r.cls == 1) ∧
    testDf.countP (fun r => r.cls == 1) = 2 :=
  ⟨(pie_all_success_by_site testDf (by decide)).2.2, by decide⟩

/-- C2: for a specific site the pie-chart updater emits at most two
slices, every slice is labeled "Failure" (class 0) or "Success" (class 1),
and a "Success" slice carrying value `c` exists exactly when the site has
`c > 0` success records. -/
theorem pie_site_success_slices (df : List LaunchRecord) (s : String)
    (hs : s ≠ "ALL") (hb : BinaryClasses df) :
    (get_pie_chart df s).slices.length ≤ 2 ∧
    (∀ p ∈ (get_pie_chart df s).slices, p.1 = "Failure" ∨ p.1 = "Success") ∧
    (∀ c : Nat, ("Success", c) ∈ (get_pie_chart df s).slices ↔
      (0 < c ∧ c = df.countP (fun r => r.site == s && r.cls == 1))) := by
  have hcond : (s == "ALL") = false := by simp [hs]
  have hslices : (get_pie_chart df s).slices
      = (value_counts ((df.filter (fun r => r.site == s)).map (·.cls))).map
          (fun p => (classLabel p.1, p.2)) := by
    simp only [get_pie_chart, hcond, Bool.false_eq_true, if_false]
  set fl := (df.filter (fun r => r.site == s)).map (·.cls) with hfl
  have hperm : (value_counts fl).Perm
      ((uniqueList fl).map (fun v => (v, fl.count v))) := sortByCountDesc_perm _
  have hpermm : ((value_counts fl).map (fun p => (classLabel p.1, p.2))).Perm
      (((uniqueList fl).map (fun v => (v, fl.count v))).map
        (fun p => (classLabel p.1, p.2))) := hperm.map _
  have hb01 : ∀ v ∈ fl, v = 0 ∨ v = 1 := binary_site_column df s hb
  refine ⟨?_, ?_, ?_⟩
  · rw [hslices, List.length_map, hperm.length_eq, List.length_map]
    exact binary_nodup_length_le_two _ (nodup_uniqueList fl)
      (fun v hv => hb01 v ((mem_uniqueList v fl).mp hv))
  · rw [hslices]
    intro p hp
    rcases List.mem_map.mp hp with ⟨q, hq, rfl⟩
    rcases List.mem_map.mp (hperm.mem_iff.mp hq) with ⟨v, hv, rfl⟩
    rcases hb01 v ((mem_uniqueList v fl).mp hv) with rfl | rfl
    · exact Or.inl rfl
    · exact Or.inr rfl
  · rw [hslices]
    intro c
    constructor
    · intro hc
      have hc2 := hpermm.mem_iff.mp hc
      rw [List.map_map] at hc2
      rcases List.mem_map.mp hc2 with ⟨v, hv, heq⟩
      have hlab : classLabel v = "Success" := congrArg Prod.fst heq
      have hcnt : fl.count v = c := congrArg Prod.snd heq
      rcases hb01 v ((mem_uniqueList v fl).mp hv) with rfl | rfl
      · exact absurd hlab (by decide)
      · subst hcnt
        refine ⟨List.count_pos_iff.mpr ((mem_uniqueList 1 fl).mp hv), ?_⟩
        exact count_one_site_column df s
    · rintro ⟨hpos, rfl⟩
      refine hpermm.mem_iff.mpr ?_
      rw [List.map_map]
      refine List.mem_map.mpr ⟨1, ?_, ?_⟩
      · refine (mem_uniqueList 1 fl).mpr (List.count_pos_iff.mp ?_)
        rw [count_one_site_column df s]
        exact hpos
      · show (classLabel 1, fl.count 1) = ("Success", df.countP _)
        rw [count_one_site_column df s]
        rfl

/-- Witness for C2 on the concrete dataset: site "A" yields at most two
slices and a "Success" slice of value 2 (its two successful launches). -/
theorem pie_site_success_slices_w :
    (get_pie_chart testDf "A").slices.length ≤ 2 ∧
    ("Success", 2) ∈ (get_pie_chart testDf "A").slices := by
  have h := pie_site_success_slices testDf "A" (by decide) (by decide)
  exact ⟨h.1, (h.2.2 2).mpr (by decide)⟩

/-- C5 counterexample: quantified over ALL site selections the claim
fails — `pieChart("ALL")` passes no colour map at all, so the colour
assigned to "Success" under selection "ALL" (none) differs from the one
under selection "A" (the fixed palette colour). -/
theorem pie_success_color_differs_at_ALL :
    colorLookup (get_pie_chart testDf "ALL").colorMap "Success"
      ≠ colorLookup (get_pie_chart testDf "A").colorMap "Success" := by decide

/-- C5 amended: for every pair of site selections OTHER than "ALL" the
colour maps coincide — Success always palette entry 0, Failure always
palette entry 1 — and the category order is always [Success, Failure];
the "ALL" figure carries no Success/Failure slices, colour map or category
order at all. -/
theorem pie_color_order_fixed_nonALL (df : List LaunchRecord) (s1 s2 : String)
    (h1 : s1 ≠ "ALL") (h2 : s2 ≠ "ALL") :
    (get_pie_chart df s1).colorMap = (get_pie_chart df s2).colorMap ∧
    colorLookup (get_pie_chart df s1).colorMap "Success"
      = some (plotlyQualitative.get? 0) ∧
    colorLookup (get_pie_chart df s1).colorMap "Failure"
      = some (plotlyQualitative.get? 1) ∧
    (get_pie_chart df s1).categoryOrder = ["Success", "Failure"] ∧
    (get_pie_chart df s2).categoryOrder = ["Success", "Failure"] := by
  have hc1 : (s1 == "ALL") = false := by simp [h1]
  have hc2 : (s2 == "ALL") = false := by simp [h2]
  have e1 : (get_pie_chart df s1).colorMap
      = [("Failure", plotlyQualitative.get? 1), ("Success", plotlyQualitative.get? 0)] := by
    simp [get_pie_chart, hc1]
  have e2 : (get_pie_chart df s2).colorMap
      = [("Failure", plotlyQualitative.get? 1), ("Success", plotlyQualitative.get? 0)] := by
    simp [get_pie_chart, hc2]
  have o1 : (get_pie_chart df s1).categoryOrder = ["Success", "Failure"] := by
    simp [get_pie_chart, hc1]
  have o2 : (get_pie_chart df s2).categoryOrder = ["Success", "Failure"] := by
    simp [get_pie_chart, hc2]
  refine ⟨e1.trans e2.symm, ?_, ?_, o1, o2⟩
  · rw [e1]; rfl
  · rw [e1]; rfl

/-- Witness for C5's amended claim at the concrete sites "A" and "B". -/
theorem pie_color_order_fixed_nonALL_w :
    (get_pie_chart testDf "A").colorMap = (get_pie_chart testDf "B").colorMap ∧
    (get_pie_chart testDf "A").categoryOrder = ["Success", "Failure"] := by
  have h := pie_color_order_fixed_nonALL testDf "A" "B" (by decide) (by decide)
  exact ⟨h.1, h.2.2.2.1⟩

/-- C7 counterexample: for the site value "C" — neither "ALL" nor a launch
site of the dataset — the pie-chart updater does not fail with any error:
it returns an ordinary figure with an empty slice list.  (The source
defines no `InvalidSelectionError` and performs no site validation.) -/
theorem pie_unknown_site_no_error :
    get_pie_chart testDf "C"
      = { slices := [],
          colorMap := [("Failure", plotlyQualitative.get? 1),
                       ("Success", plotlyQualitative.get? 0)],
          categoryOrder := ["Success", "Failure"],
          title := "Total Success Launches for Site C" } := by decide

/-- C7 amended: for every input site value that is neither "ALL" nor one
of the dataset's launch sites, the pie-chart updater returns normally a
figure with an empty slice list and the usual per-site title. -/
theorem pie_unknown_site_empty (df : List LaunchRecord) (s : String)
    (hs : s ≠ "ALL") (hnot : ∀ r ∈ df, r.site ≠ s) :
    (get_pie_chart df s).slices = [] ∧
    (get_pie_chart df s).title = "Total Success Launches for Site " ++ s := by
  have hcond : (s == "ALL") = false := by simp [hs]
  have hfil : df.filter (fun r => r.site == s) = [] :=
    List.filter_eq_nil_iff.mpr (fun r hr => by simp [hnot r hr])
  constructor
  · simp [get_pie_chart, hcond, hfil, value_counts, uniqueList, sortByCountDesc]
  · simp [get_pie_chart, hcond]

/-- Witness for C7's amended claim at the concrete unknown site "C". -/
theorem pie_unknown_site_empty_w :
    (get_pie_chart testDf "C").slices = [] :=
  (pie_unknown_site_empty testDf "C" (by decide) (by decide)).1
